import Mathlib

/-!
Shallow embedding of the Pixisphere Partner Matching & Lead Distribution
Engine (`services/matchingService.js`, here `src/unnamed/part_007`), together
with the store schemas it touches (`models/Inquiry`, the partner part of
`models/User.js`).

Modelling conventions:
* JavaScript numbers are modelled as `ℚ` (all arithmetic in the engine is
  exact at these magnitudes; no float-rounding-sensitive computation occurs).
* Possibly-`undefined` JavaScript values are `Option`; a JS comparison
  against `undefined` yields `false` and is modelled by `jsLeOpt`/`jsGeOpt`.
* `new RegExp(pat, "i").test(s)` on the plain city strings used by the code
  is case-insensitive substring containment, modelled by `hasSubL` over
  lower-cased character lists.
* The MongoDB query + sort of `Partner.find(...).sort(...).limit(limit)` is
  modelled as: filter the partner collection (given explicitly as a list in
  collection order), stable-sort it by the sort specification
  (isFeatured desc, rating.average desc, totalBookings desc, createdAt desc),
  and take the first `limit` elements.  `Array.prototype.sort` (stable, per
  ES2019) is likewise modelled by the stable `List.insertionSort`.
* `Inquiry.findByIdAndUpdate` updates the record(s) whose `id` matches and
  is a no-op (returning no error) when none matches, exactly as Mongoose
  behaves; `_id` values are unique in the store.
-/

namespace Pixisphere

/-- Lower-case a string into its character list; models
`String.prototype.toLowerCase()` for the ASCII city names the engine
compares. -/
def lowerStr (s : String) : List Char := s.data.map Char.toLower

/-- Boolean test that the first character list is a prefix of the second. -/
def startsWithL : List Char → List Char → Bool
  | [], _ => true
  | _ :: _, [] => false
  | a :: as, b :: bs => a == b && startsWithL as bs

/-- Boolean test that `pat` occurs as a contiguous substring of the second
list; together with `lowerStr` this models the unanchored case-insensitive
regex test `new RegExp(pat, "i").test(s)` for metacharacter-free patterns. -/
def hasSubL (pat : List Char) : List Char → Bool
  | [] => pat.isEmpty
  | b :: bs => startsWithL pat (b :: bs) || hasSubL pat bs

/-- JS `a <= b` where `b` may be `undefined` (comparison with `undefined` is
false). -/
def jsLeOpt (a : ℚ) : Option ℚ → Bool
  | some b => decide (a ≤ b)
  | none => false

/-- JS `a >= b` where `b` may be `undefined` (comparison with `undefined` is
false). -/
def jsGeOpt (a : ℚ) : Option ℚ → Bool
  | some b => decide (b ≤ a)
  | none => false

/-- Partner price range (`businessInfo.priceRange` in `models/User.js`): both
bounds are required by the schema. -/
structure PriceRange where
  min : ℚ
  max : ℚ
deriving DecidableEq

/-- The part of `businessInfo` (partner schema in `models/User.js`) that the
matching engine reads. -/
structure BusinessInfo where
  categories : List String
  experience : ℚ
  priceRange : PriceRange
deriving DecidableEq

/-- Partner verification subdocument (`verification.status` is one of
pending / verified / rejected). -/
structure Verification where
  status : String
deriving DecidableEq

/-- Partner rating subdocument. -/
structure Rating where
  average : ℚ
deriving DecidableEq

/-- City/state location subdocument shared by inquiries and partners. -/
structure GeoLocation where
  city : String
  state : String
deriving DecidableEq

/-- A partner record as read by the matching engine; `createdAt` is the
Mongoose timestamp used as the last sort key of the store query. -/
structure Partner where
  id : ℕ
  verification : Verification
  isActive : Bool
  isFeatured : Bool
  businessInfo : BusinessInfo
  location : GeoLocation
  rating : Rating
  totalBookings : ℚ
  createdAt : ℚ
deriving DecidableEq

/-- Inquiry budget subdocument; in `models/Inquiry` neither bound is
required, so both are optional. -/
structure Budget where
  min : Option ℚ
  max : Option ℚ
deriving DecidableEq

/-- A partner's response inside an assignment entry (`models/Inquiry`,
`assignedPartners[].response`). -/
structure Response where
  message : Option String
  quotation : Option ℚ
  respondedAt : Option ℕ
  isAccepted : Bool
deriving DecidableEq

/-- One entry of an inquiry's `assignedPartners` list. -/
structure Assignment where
  partnerId : ℕ
  assignedAt : ℕ
  response : Option Response
deriving DecidableEq

/-- An inquiry record (`models/Inquiry`) restricted to the fields the engine
reads or writes, plus representative fields (`eventDate`, `status`) that it
does not. -/
structure Inquiry where
  id : ℕ
  category : String
  location : GeoLocation
  budget : Option Budget
  eventDate : ℕ
  status : String
  assignedPartners : List Assignment
deriving DecidableEq

/-- The budget part of the Mongo `matchCriteria` built by
`findMatchingPartners`: the guard is the JS truthiness test
`if (budget && budget.max)`, and the added criterion is
`$or: [priceRange.min <= budget.max, priceRange.max >= (budget.min || 0)]`. -/
def priceTest (budget : Option Budget) (p : Partner) : Bool :=
  match budget with
  | none => true
  | some b =>
    match b.max with
    | none => true
    | some bMax =>
      if bMax = 0 then true
      else
        decide (p.businessInfo.priceRange.min ≤ bMax) ||
        decide (b.min.getD 0 ≤ p.businessInfo.priceRange.max)

/-- The full Mongo `matchCriteria` of `findMatchingPartners`: verified,
active, category membership, case-insensitive regex city match, and the
budget `$or` (when active). -/
def matchesCriteria (inq : Inquiry) (p : Partner) : Bool :=
  p.verification.status == "verified" &&
  p.isActive &&
  p.businessInfo.categories.contains inq.category &&
  hasSubL (lowerStr inq.location.city) (lowerStr p.location.city) &&
  priceTest inq.budget p

/-- The store sort specification
`{isFeatured: -1, "rating.average": -1, totalBookings: -1, createdAt: -1}` as
a total preorder: `dbSortLe p q` holds when `p` may precede `q`. -/
def dbSortLe (p q : Partner) : Bool :=
  if p.isFeatured = q.isFeatured then
    if p.rating.average = q.rating.average then
      if p.totalBookings = q.totalBookings then decide (q.createdAt ≤ p.createdAt)
      else decide (q.totalBookings < p.totalBookings)
    else decide (q.rating.average < p.rating.average)
  else p.isFeatured

/-- `dbSortLe` as a decidable relation for the stable sort. -/
def dbRel (p q : Partner) : Prop := dbSortLe p q = true

instance : DecidableRel dbRel := fun p q => inferInstanceAs (Decidable (dbSortLe p q = true))

/-- Stage one of `findMatchingPartners`: the store query
`Partner.find(matchCriteria).sort(...).limit(limit)` — filter the partner
collection, stable-sort by the sort specification, truncate to `limit`. -/
def selectedPartners (db : List Partner) (inq : Inquiry) (limit : ℕ) : List Partner :=
  (List.insertionSort dbRel (db.filter (matchesCriteria inq))).take limit

/-- The budget-compatibility block of `calculateMatchScore`: +10 for overlap
(`partnerMin <= inquiryMax && partnerMax >= inquiryMin`, JS comparisons with
`undefined` being false), plus +5 when the partner range is contained in the
inquiry range. -/
def budgetBonus (budget : Option Budget) (p : Partner) : ℚ :=
  match budget with
  | none => 0
  | some b =>
    if jsLeOpt p.businessInfo.priceRange.min b.max &&
       jsGeOpt p.businessInfo.priceRange.max b.min then
      10 + (if jsGeOpt p.businessInfo.priceRange.min b.min &&
               jsLeOpt p.businessInfo.priceRange.max b.max then 5 else 0)
    else 0

/-- `calculateMatchScore(partner, inquiry)`: the sequential `score += ...`
accumulator of the source written as the equal sum of its guarded
contributions, in source order. -/
def calculateMatchScore (partner : Partner) (inquiry : Inquiry) : ℚ :=
  10
  + (if partner.isFeatured then 20 else 0)
  + (if 0 < partner.rating.average then partner.rating.average * 5 else 0)
  + min (partner.businessInfo.experience * 2) 20
  + (if lowerStr partner.location.city = lowerStr inquiry.location.city then 15 else 0)
  + budgetBonus inquiry.budget partner
  + (if 0 < partner.totalBookings then min partner.totalBookings 10 else 0)
  + (if partner.businessInfo.categories.length ≤ 3 then 5 else 0)

/-- Ranking relation of the final JS sort `(a, b) => b.score - a.score`:
`a` may precede `b` when its score is at least `b`'s. -/
def scoreOrd (a b : Partner × ℚ) : Prop := b.2 ≤ a.2

instance : DecidableRel scoreOrd := fun a b => inferInstanceAs (Decidable (b.2 ≤ a.2))

instance : IsTotal (Partner × ℚ) scoreOrd := ⟨fun a b => le_total b.2 a.2⟩

instance : IsTrans (Partner × ℚ) scoreOrd := ⟨fun _ _ _ h1 h2 => le_trans h2 h1⟩

/-- Stage two of `findMatchingPartners`: score the selected partners and
stable-sort the (partner, score) pairs by score descending. -/
def rankedCandidates (db : List Partner) (inq : Inquiry) (limit : ℕ) : List (Partner × ℚ) :=
  List.insertionSort scoreOrd
    ((selectedPartners db inq limit).map (fun p => (p, calculateMatchScore p inq)))

/-- `findMatchingPartners(inquiry, limit)`: the ranked candidates mapped to
their partner ids. -/
def findMatchingPartners (db : List Partner) (inq : Inquiry) (limit : ℕ) : List ℕ :=
  (rankedCandidates db inq limit).map (fun x => x.1.id)

/-- The two stores the engine touches: the inquiry collection it writes and
the partner collection it never writes. -/
structure Store where
  inquiries : List Inquiry
  partners : List Partner
deriving DecidableEq

/-- Result object returned by `distributeInquiry`. -/
structure DistributionResult where
  success : Bool
  assignedCount : ℕ
  partnerIds : List ℕ
deriving DecidableEq

/-- The `$set` payload of `distributeInquiry` applied to one inquiry record:
`assignedPartners` is overwritten with one fresh entry per partner id (each
with `assignedAt = now` and no `response`) and `status` becomes
"assigned". -/
def applyAssignment (now : ℕ) (partnerIds : List ℕ) (inq : Inquiry) : Inquiry :=
  { inq with
    assignedPartners :=
      partnerIds.map (fun pid => { partnerId := pid, assignedAt := now, response := none }),
    status := "assigned" }

/-- `distributeInquiry(inquiryId, partnerIds)`: one
`Inquiry.findByIdAndUpdate` with the `$set` above (a no-op when no record
has the id — Mongoose raises no error then), followed by the unconditional
success result the source returns. -/
def distributeInquiry (store : Store) (now : ℕ) (inquiryId : ℕ) (partnerIds : List ℕ) :
    Store × DistributionResult :=
  ({ store with
      inquiries :=
        store.inquiries.map
          (fun inq => if inq.id == inquiryId then applyAssignment now partnerIds inq else inq) },
   { success := true, assignedCount := partnerIds.length, partnerIds := partnerIds })

/-! Concrete fixtures used by counterexamples and witnesses. -/

/-- The inquiry of the spec's worked example: wedding, Mumbai, budget
25000–75000. -/
def inqMumbai : Inquiry :=
  { id := 500, category := "wedding",
    location := { city := "Mumbai", state := "MH" },
    budget := some { min := some 25000, max := some 75000 },
    eventDate := 0, status := "new", assignedPartners := [] }

/-- Partner A of the spec's worked example (rating 4.5, featured,
experience 5, prices 20000–60000, 12 bookings, one category). -/
def partnerA : Partner :=
  { id := 11,
    verification := { status := "verified" },
    isActive := true, isFeatured := true,
    businessInfo := { categories := ["wedding"], experience := 5,
                      priceRange := { min := 20000, max := 60000 } },
    location := { city := "Mumbai", state := "MH" },
    rating := { average := 9/2 },
    totalBookings := 12, createdAt := 0 }

/-- A featured Mumbai wedding partner with no rating, no experience, no
bookings and prices 100000–200000 (entirely above `inqMumbai`'s budget). -/
def featuredLowScorer : Partner :=
  { id := 1,
    verification := { status := "verified" },
    isActive := true, isFeatured := true,
    businessInfo := { categories := ["wedding"], experience := 0,
                      priceRange := { min := 100000, max := 200000 } },
    location := { city := "Mumbai", state := "MH" },
    rating := { average := 0 },
    totalBookings := 0, createdAt := 0 }

/-- An unfeatured Mumbai wedding partner with maximal rating, experience,
bookings, and prices 30000–60000 inside `inqMumbai`'s budget. -/
def strongUnfeatured : Partner :=
  { id := 2,
    verification := { status := "verified" },
    isActive := true, isFeatured := false,
    businessInfo := { categories := ["wedding"], experience := 10,
                      priceRange := { min := 30000, max := 60000 } },
    location := { city := "Mumbai", state := "MH" },
    rating := { average := 5 },
    totalBookings := 10, createdAt := 0 }

/-- A verified, active wedding partner located in "Navi Mumbai". -/
def partnerNavi : Partner :=
  { id := 3,
    verification := { status := "verified" },
    isActive := true, isFeatured := false,
    businessInfo := { categories := ["wedding"], experience := 2,
                      priceRange := { min := 30000, max := 60000 } },
    location := { city := "Navi Mumbai", state := "MH" },
    rating := { average := 4 },
    totalBookings := 3, createdAt := 0 }

/-- A second, unrelated inquiry used to check frame conditions. -/
def inqOther : Inquiry :=
  { id := 101, category := "portrait",
    location := { city := "Pune", state := "MH" },
    budget := none,
    eventDate := 7, status := "new", assignedPartners := [] }

/-- A store holding two inquiries and one partner. -/
def storeTwo : Store :=
  { inquiries := [inqMumbai, inqOther], partners := [partnerA] }

/-! Evaluation lemmas on the fixtures. -/

/-- Partner A scores 10+20+22.5+10+15+10+10+5 = 102.5 on the example
inquiry. -/
lemma score_partnerA : calculateMatchScore partnerA inqMumbai = 205/2 := by
  simp [calculateMatchScore, budgetBonus, partnerA, inqMumbai, jsLeOpt, jsGeOpt]
  norm_num

/-- The featured low scorer gets only base, featured, city and
specialization credit: 50. -/
lemma score_featuredLowScorer : calculateMatchScore featuredLowScorer inqMumbai = 50 := by
  simp [calculateMatchScore, budgetBonus, featuredLowScorer, inqMumbai, jsLeOpt, jsGeOpt]
  norm_num

/-- The strong unfeatured partner collects every bonus except the featured
one: 100. -/
lemma score_strongUnfeatured : calculateMatchScore strongUnfeatured inqMumbai = 100 := by
  simp [calculateMatchScore, budgetBonus, strongUnfeatured, inqMumbai, jsLeOpt, jsGeOpt]
  norm_num

lemma matches_featuredLowScorer : matchesCriteria inqMumbai featuredLowScorer = true := by
  have hp : priceTest inqMumbai.budget featuredLowScorer = true := by
    simp [priceTest, inqMumbai, featuredLowScorer]
    norm_num
  unfold matchesCriteria
  rw [hp]
  decide

lemma matches_strongUnfeatured : matchesCriteria inqMumbai strongUnfeatured = true := by
  have hp : priceTest inqMumbai.budget strongUnfeatured = true := by
    simp [priceTest, inqMumbai, strongUnfeatured]
    norm_num
  unfold matchesCriteria
  rw [hp]
  decide

lemma matches_partnerNavi : matchesCriteria inqMumbai partnerNavi = true := by
  have hp : priceTest inqMumbai.budget partnerNavi = true := by
    simp [priceTest, inqMumbai, partnerNavi]
    norm_num
  unfold matchesCriteria
  rw [hp]
  decide

/-- The store query on the two-partner collection with fan-out 1 selects only
the featured partner: the store sort puts featured partners first and the
`limit` truncates before any scoring happens. -/
lemma selected_eval :
    selectedPartners [featuredLowScorer, strongUnfeatured] inqMumbai 1 = [featuredLowScorer] := by
  have hdb : dbRel featuredLowScorer strongUnfeatured := by
    show dbSortLe featuredLowScorer strongUnfeatured = true
    simp [dbSortLe, featuredLowScorer, strongUnfeatured]
  simp [selectedPartners, List.filter, matches_featuredLowScorer, matches_strongUnfeatured,
    List.insertionSort, List.orderedInsert, hdb]

/-- With fan-out 1 the engine returns only the featured partner's id. -/
lemma fmp_eval :
    findMatchingPartners [featuredLowScorer, strongUnfeatured] inqMumbai 1 = [1] := by
  unfold findMatchingPartners rankedCandidates
  rw [selected_eval]
  simp [List.insertionSort, List.orderedInsert, featuredLowScorer]

/-- Helper: a map whose function fixes every member of the list is the
identity on that list. -/
lemma map_id_of_mem {α : Type} (l : List α) (f : α → α) (h : ∀ x ∈ l, f x = x) :
    l.map f = l := by
  induction l with
  | nil => rfl
  | cons a t ih =>
    simp only [List.map_cons, h a (List.mem_cons_self a t)]
    rw [ih (fun x hx => h x (List.mem_cons_of_mem a hx))]

/-- C1 (counterexample): called on a store whose inquiries are ids 500 and
101 with the absent id 999, `distributeInquiry` still reports success (with
`assignedCount` 2), refuting the claimed NotFound failure; the store is
indeed left unchanged. -/
theorem distributeInquiry_missing_id_cex :
    (distributeInquiry storeTwo 3 999 [1, 2]).2.success = true ∧
    (distributeInquiry storeTwo 3 999 [1, 2]).2.assignedCount = 2 ∧
    (distributeInquiry storeTwo 3 999 [1, 2]).1 = storeTwo :=
  ⟨rfl, rfl, rfl⟩

/-- C1 (amended): when no inquiry in the store has the given id,
`distributeInquiry` is a silent no-op on the store and nevertheless returns
a success result counting all passed partner ids. -/
theorem distributeInquiry_missing_id_silent_success :
    ∀ (store : Store) (now inquiryId : ℕ) (pids : List ℕ),
      (∀ j ∈ store.inquiries, j.id ≠ inquiryId) →
      (distributeInquiry store now inquiryId pids).1 = store ∧
      (distributeInquiry store now inquiryId pids).2.success = true ∧
      (distributeInquiry store now inquiryId pids).2.assignedCount = pids.length := by
  intro store now inquiryId pids h
  refine ⟨?_, rfl, rfl⟩
  show ({ store with
      inquiries := store.inquiries.map
        (fun inq => if inq.id == inquiryId then applyAssignment now pids inq else inq) } : Store)
    = store
  have hmap : store.inquiries.map
      (fun inq => if inq.id == inquiryId then applyAssignment now pids inq else inq)
      = store.inquiries := by
    apply map_id_of_mem
    intro x hx
    simp [beq_eq_false_iff_ne.mpr (h x hx)]
  rw [hmap]

/-- C1 (witness): the amended no-op/success behaviour at the concrete
two-inquiry store and the absent id 999. -/
theorem distributeInquiry_missing_id_silent_success_witness :
    (distributeInquiry storeTwo 5 999 [7]).1 = storeTwo ∧
    (distributeInquiry storeTwo 5 999 [7]).2.success = true ∧
    (distributeInquiry storeTwo 5 999 [7]).2.assignedCount = 1 := by
  have h := distributeInquiry_missing_id_silent_success storeTwo 5 999 [7] (by decide)
  exact ⟨h.1, h.2.1, h.2.2⟩

/-- Modelled from the spec's words, for refinement comparison only (§4.1):
the price predicate as the spec states it — the partner price range must
overlap the inquiry budget range, `partnerMin ≤ budgetMax AND partnerMax ≥
budgetMin`; inquiries without a budget filter nobody. -/
def specPricePass (budget : Option Budget) (p : Partner) : Bool :=
  match budget with
  | none => true
  | some b =>
    jsLeOpt p.businessInfo.priceRange.min b.max &&
    jsGeOpt p.businessInfo.priceRange.max b.min

/-- C3 (counterexample): on the budget 25000–75000 and a partner priced
100000–200000 the spec's conjunction fails (100000 ≰ 75000), yet the code's
`$or` criterion passes the partner, so the price test is not the claimed
conjunction. -/
theorem priceTest_disjunction_cex :
    priceTest inqMumbai.budget featuredLowScorer = true ∧
    specPricePass inqMumbai.budget featuredLowScorer = false := by
  constructor
  · simp [priceTest, inqMumbai, featuredLowScorer]
    norm_num
  · simp [specPricePass, inqMumbai, featuredLowScorer, jsLeOpt, jsGeOpt]
    norm_num

/-- C3 (amended): when the inquiry budget is present with a defined nonzero
max, a partner passes the price criterion exactly when
`priceRange.min ≤ budget.max` OR `priceRange.max ≥ budget.min` (0 when
absent); when the budget is absent, or its max is absent or 0, nobody is
excluded by price. -/
theorem priceTest_characterization :
    ∀ (b : Budget) (m : ℚ) (p : Partner),
      b.max = some m → m ≠ 0 →
      ((priceTest (some b) p = true ↔
        (p.businessInfo.priceRange.min ≤ m ∨
         b.min.getD 0 ≤ p.businessInfo.priceRange.max)) ∧
       priceTest none p = true ∧
       (∀ b2 : Budget, b2.max = none → priceTest (some b2) p = true) ∧
       (∀ b3 : Budget, b3.max = some 0 → priceTest (some b3) p = true)) := by
  intro b m p hmax hm0
  refine ⟨?_, rfl, ?_, ?_⟩
  · simp [priceTest, hmax, hm0]
  · intro b2 h2
    simp [priceTest, h2]
  · intro b3 h3
    simp [priceTest, h3]

/-- C3 (witness): the amended characterization at the concrete budget
25000–75000 and the partner priced 100000–200000. -/
theorem priceTest_characterization_witness :
    ((priceTest (some { min := some 25000, max := some 75000 }) featuredLowScorer = true ↔
      (featuredLowScorer.businessInfo.priceRange.min ≤ 75000 ∨
       ({ min := some 25000, max := some 75000 } : Budget).min.getD 0 ≤
         featuredLowScorer.businessInfo.priceRange.max)) ∧
     priceTest none featuredLowScorer = true ∧
     (∀ b2 : Budget, b2.max = none → priceTest (some b2) featuredLowScorer = true) ∧
     (∀ b3 : Budget, b3.max = some 0 → priceTest (some b3) featuredLowScorer = true)) :=
  priceTest_characterization { min := some 25000, max := some 75000 } 75000 featuredLowScorer
    rfl (by norm_num)

/-- C4 (counterexample): the inquiry city "Mumbai" and the partner city
"Navi Mumbai" differ even case-insensitively, yet the partner passes the
eligibility filter, because the filter is an unanchored case-insensitive
regex (substring) test, not an equality test. -/
theorem cityFilter_substring_cex :
    matchesCriteria inqMumbai partnerNavi = true ∧
    lowerStr partnerNavi.location.city ≠ lowerStr inqMumbai.location.city := by
  exact ⟨matches_partnerNavi, by decide⟩

/-- C4 (amended): a partner passes the eligibility filter exactly when it is
verified, active, offers the inquiry's category, the inquiry city occurs
case-insensitively as a substring of the partner city, and the budget `$or`
criterion holds; in particular a partner city that strictly contains the
inquiry city qualifies. -/
theorem matchesCriteria_characterization :
    ∀ (inq : Inquiry) (p : Partner),
      matchesCriteria inq p = true ↔
        (p.verification.status = "verified" ∧ p.isActive = true ∧
         inq.category ∈ p.businessInfo.categories ∧
         hasSubL (lowerStr inq.location.city) (lowerStr p.location.city) = true ∧
         priceTest inq.budget p = true) := by
  intro inq p
  simp [matchesCriteria, Bool.and_eq_true, beq_iff_eq, List.contains, and_assoc]

/-- C5 (counterexample): the worked example's score is not 107.5. -/
theorem calculateMatchScore_example_ne :
    calculateMatchScore partnerA inqMumbai ≠ (107.5 : ℚ) := by
  rw [score_partnerA]
  norm_num

/-- C5 (amended): for the worked example inquiry and partner A the score is
exactly 102.5 = 10+20+22.5+10+15+10+10+5 (the spec's own summands; its
stated total 107.5 is an arithmetic slip). -/
theorem calculateMatchScore_example_value :
    calculateMatchScore partnerA inqMumbai = (102.5 : ℚ) := by
  rw [score_partnerA]
  norm_num

/-- C2 (counterexample): with fan-out 1, the store query truncates the
eligible set (featured-first order) to the featured partner before any
scoring, so the engine returns the featured partner (score 50) while the
eligible unfeatured partner with score 100 is not returned — the returned
partner's score is not greater than or equal to every eligible non-returned
partner's score. -/
theorem findMatchingPartners_prelimit_cex :
    findMatchingPartners [featuredLowScorer, strongUnfeatured] inqMumbai 1 =
      [featuredLowScorer.id] ∧
    matchesCriteria inqMumbai strongUnfeatured = true ∧
    strongUnfeatured.id ∉ findMatchingPartners [featuredLowScorer, strongUnfeatured] inqMumbai 1 ∧
    calculateMatchScore featuredLowScorer inqMumbai <
      calculateMatchScore strongUnfeatured inqMumbai := by
  refine ⟨fmp_eval, matches_strongUnfeatured, ?_, ?_⟩
  · rw [fmp_eval]
    decide
  · rw [score_featuredLowScorer, score_strongUnfeatured]
    norm_num

/-- C2 (amended): the engine first selects at most `limit` eligible partners
in the store sort order (featured, rating, bookings, createdAt, each
descending, stable), then scores exactly those selected partners and returns
their ids sorted by score descending (stable): the returned score sequence
is descending and the returned ids are a permutation of the selected
prefix's ids — eligible partners outside that prefix are never returned,
whatever their score. -/
theorem findMatchingPartners_ranks_selected :
    ∀ (db : List Partner) (inq : Inquiry) (limit : ℕ),
      List.Sorted (fun a b : ℚ => b ≤ a)
        ((rankedCandidates db inq limit).map (fun x => x.2)) ∧
      List.Perm (findMatchingPartners db inq limit)
        ((selectedPartners db inq limit).map (fun p => p.id)) ∧
      (∀ x ∈ rankedCandidates db inq limit,
        x.2 = calculateMatchScore x.1 inq ∧ x.1 ∈ selectedPartners db inq limit) := by
  intro db inq limit
  refine ⟨?_, ?_, ?_⟩
  · have hs := List.sorted_insertionSort scoreOrd
      ((selectedPartners db inq limit).map (fun p => (p, calculateMatchScore p inq)))
    show List.Pairwise (fun a b : ℚ => b ≤ a)
      ((rankedCandidates db inq limit).map (fun x => x.2))
    exact List.Pairwise.map (fun x : Partner × ℚ => x.2) (fun a b hab => hab) hs
  · have hp := List.perm_insertionSort scoreOrd
      ((selectedPartners db inq limit).map (fun p => (p, calculateMatchScore p inq)))
    have := hp.map (fun x : Partner × ℚ => x.1.id)
    simpa [findMatchingPartners, rankedCandidates, List.map_map, Function.comp] using this
  · intro x hx
    have hx2 : x ∈ (selectedPartners db inq limit).map
        (fun p => (p, calculateMatchScore p inq)) := by
      have := (List.mem_insertionSort scoreOrd).mp hx
      simpa [rankedCandidates] using this
    obtain ⟨p, hp, rfl⟩ := List.mem_map.mp hx2
    exact ⟨rfl, hp⟩

/-- C2 (witness): the amended ranking properties at the two-partner store
with fan-out 1, instantiating the membership clause at the single ranked
candidate. -/
theorem findMatchingPartners_ranks_selected_witness :
    List.Sorted (fun a b : ℚ => b ≤ a)
      ((rankedCandidates [featuredLowScorer, strongUnfeatured] inqMumbai 1).map (fun x => x.2)) ∧
    List.Perm (findMatchingPartners [featuredLowScorer, strongUnfeatured] inqMumbai 1)
      ((selectedPartners [featuredLowScorer, strongUnfeatured] inqMumbai 1).map
        (fun p => p.id)) ∧
    ((featuredLowScorer, calculateMatchScore featuredLowScorer inqMumbai).2 =
        calculateMatchScore
          (featuredLowScorer, calculateMatchScore featuredLowScorer inqMumbai).1 inqMumbai ∧
      (featuredLowScorer, calculateMatchScore featuredLowScorer inqMumbai).1 ∈
        selectedPartners [featuredLowScorer, strongUnfeatured] inqMumbai 1) := by
  have h := findMatchingPartners_ranks_selected [featuredLowScorer, strongUnfeatured] inqMumbai 1
  refine ⟨h.1, h.2.1, h.2.2 (featuredLowScorer, calculateMatchScore featuredLowScorer inqMumbai) ?_⟩
  have : (featuredLowScorer, calculateMatchScore featuredLowScorer inqMumbai) ∈
      (selectedPartners [featuredLowScorer, strongUnfeatured] inqMumbai 1).map
        (fun p => (p, calculateMatchScore p inqMumbai)) := by
    rw [selected_eval]
    simp
  exact (List.mem_insertionSort scoreOrd).mpr this

/-- C6: for an existing inquiry, after `distributeInquiry` every inquiry
record carrying the distributed id has status "assigned" and its assignment
list fully replaced by exactly one fresh entry per passed partner id, in
order, each stamped with the distribution time and carrying no response. -/
theorem distributeInquiry_assigns :
    ∀ (store : Store) (now inquiryId : ℕ) (pids : List ℕ),
      (∃ j ∈ store.inquiries, j.id = inquiryId) → pids ≠ [] →
      (∃ inq ∈ (distributeInquiry store now inquiryId pids).1.inquiries,
        inq.id = inquiryId) ∧
      (∀ inq ∈ (distributeInquiry store now inquiryId pids).1.inquiries,
        inq.id = inquiryId →
          inq.status = "assigned" ∧
          inq.assignedPartners =
            pids.map (fun pid => { partnerId := pid, assignedAt := now, response := none }) ∧
          inq.assignedPartners.length = pids.length ∧
          ∀ a ∈ inq.assignedPartners, a.assignedAt = now ∧ a.response = none) := by
  intro store now inquiryId pids hex _hne
  obtain ⟨j, hj, hjid⟩ := hex
  constructor
  · refine ⟨applyAssignment now pids j, ?_, hjid⟩
    show applyAssignment now pids j ∈ (distributeInquiry store now inquiryId pids).1.inquiries
    simp only [distributeInquiry]
    refine List.mem_map.mpr ⟨j, hj, ?_⟩
    rw [if_pos (beq_iff_eq.mpr hjid)]
  · intro inq hm hid
    simp only [distributeInquiry] at hm
    obtain ⟨k, hk, hfk⟩ := List.mem_map.mp hm
    by_cases hkid : k.id = inquiryId
    · rw [if_pos (beq_iff_eq.mpr hkid)] at hfk
      subst hfk
      refine ⟨rfl, rfl, by simp [applyAssignment], ?_⟩
      intro a ha
      simp only [applyAssignment] at ha
      obtain ⟨pid, _, rfl⟩ := List.mem_map.mp ha
      exact ⟨rfl, rfl⟩
    · rw [if_neg (by simpa using hkid)] at hfk
      subst hfk
      exact absurd hid hkid

/-- C6 (witness): distributing partner ids [1, 2] at time 4 onto the
existing inquiry 500 of the two-inquiry store. -/
theorem distributeInquiry_assigns_witness :
    (∃ inq ∈ (distributeInquiry storeTwo 4 500 [1, 2]).1.inquiries, inq.id = 500) ∧
    (∀ inq ∈ (distributeInquiry storeTwo 4 500 [1, 2]).1.inquiries,
      inq.id = 500 →
        inq.status = "assigned" ∧
        inq.assignedPartners =
          [1, 2].map (fun pid => { partnerId := pid, assignedAt := 4, response := none }) ∧
        inq.assignedPartners.length = [1, 2].length ∧
        ∀ a ∈ inq.assignedPartners, a.assignedAt = 4 ∧ a.response = none) :=
  distributeInquiry_assigns storeTwo 4 500 [1, 2]
    ⟨inqMumbai, by simp [storeTwo], rfl⟩ (by simp)

/-- C7: the engine never returns more than `limit` partner ids, and when no
partner in the collection satisfies the eligibility criteria it returns the
empty list as an ordinary value (the embedding is a total function — the
code throws only when the underlying store access itself fails). -/
theorem findMatchingPartners_limit_and_empty :
    ∀ (db : List Partner) (inq : Inquiry) (limit : ℕ),
      (findMatchingPartners db inq limit).length ≤ limit ∧
      ((∀ p ∈ db, matchesCriteria inq p = false) →
        findMatchingPartners db inq limit = []) := by
  intro db inq limit
  constructor
  · simp only [findMatchingPartners, rankedCandidates, selectedPartners, List.length_map,
      List.length_insertionSort]
    exact List.length_take_le limit _
  · intro h
    have hf : db.filter (matchesCriteria inq) = [] := by
      rw [List.filter_eq_nil_iff]
      intro p hp
      simp [h p hp]
    simp [findMatchingPartners, rankedCandidates, selectedPartners, hf]

/-- C7 (witness): the single-partner collection in which nobody offers the
"portrait" category yields the empty result (and respects the limit 5). -/
theorem findMatchingPartners_limit_and_empty_witness :
    (findMatchingPartners [partnerNavi] inqOther 5).length ≤ 5 ∧
    findMatchingPartners [partnerNavi] inqOther 5 = [] := by
  have h := findMatchingPartners_limit_and_empty [partnerNavi] inqOther 5
  exact ⟨h.1, h.2 (by decide)⟩

/-- C8: `distributeInquiry` leaves the partner collection untouched and
changes the inquiry collection only at positions holding the distributed id,
each by the single `$set` write `applyAssignment`; every record with a
different id is returned unchanged at its position. -/
theorem distributeInquiry_frame :
    ∀ (store : Store) (now inquiryId : ℕ) (pids : List ℕ),
      (distributeInquiry store now inquiryId pids).1.partners = store.partners ∧
      (distributeInquiry store now inquiryId pids).1.inquiries.length =
        store.inquiries.length ∧
      (∀ (k : ℕ) (j : Inquiry), store.inquiries[k]? = some j → j.id ≠ inquiryId →
        (distributeInquiry store now inquiryId pids).1.inquiries[k]? = some j) ∧
      (∀ (k : ℕ) (j : Inquiry), store.inquiries[k]? = some j → j.id = inquiryId →
        (distributeInquiry store now inquiryId pids).1.inquiries[k]? =
          some (applyAssignment now pids j)) := by
  intro store now inquiryId pids
  refine ⟨rfl, by simp [distributeInquiry], ?_, ?_⟩
  · intro k j hk hne
    simp [distributeInquiry, List.getElem?_map, hk, hne]
  · intro k j hk heq
    simp [distributeInquiry, List.getElem?_map, hk, heq]

/-- C8 (witness): distributing onto id 500 of the two-inquiry store leaves
the partner list and the unrelated inquiry at position 1 unchanged, and
rewrites position 0 by the single `$set` write. -/
theorem distributeInquiry_frame_witness :
    (distributeInquiry storeTwo 4 500 [1, 2]).1.partners = storeTwo.partners ∧
    (distributeInquiry storeTwo 4 500 [1, 2]).1.inquiries.length =
      storeTwo.inquiries.length ∧
    (distributeInquiry storeTwo 4 500 [1, 2]).1.inquiries[1]? = some inqOther ∧
    (distributeInquiry storeTwo 4 500 [1, 2]).1.inquiries[0]? =
      some (applyAssignment 4 [1, 2] inqMumbai) := by
  have h := distributeInquiry_frame storeTwo 4 500 [1, 2]
  exact ⟨h.1, h.2.1, h.2.2.1 1 inqOther rfl (by decide), h.2.2.2 0 inqMumbai rfl rfl⟩

/-- Helper: the budget block of the score never subtracts. -/
lemma budgetBonus_nonneg (b : Option Budget) (p : Partner) : 0 ≤ budgetBonus b p := by
  cases b with
  | none => simp [budgetBonus]
  | some bb =>
    simp only [budgetBonus]
    split
    · split <;> norm_num
    · norm_num

/-- C9: under the partner-schema bounds (nonnegative rating average,
experience and booking count) every score is at least the base credit 10,
whatever the inquiry. -/
theorem calculateMatchScore_ge_ten :
    ∀ (p : Partner) (inq : Inquiry),
      0 ≤ p.rating.average → 0 ≤ p.businessInfo.experience → 0 ≤ p.totalBookings →
      10 ≤ calculateMatchScore p inq := by
  intro p inq hr he hb
  unfold calculateMatchScore
  have h1 : (0:ℚ) ≤ if p.isFeatured then 20 else 0 := by split <;> norm_num
  have h2 : (0:ℚ) ≤ if 0 < p.rating.average then p.rating.average * 5 else 0 := by
    split
    · positivity
    · norm_num
  have h3 : (0:ℚ) ≤ min (p.businessInfo.experience * 2) 20 :=
    le_min (by positivity) (by norm_num)
  have h4 : (0:ℚ) ≤
      if lowerStr p.location.city = lowerStr inq.location.city then 15 else 0 := by
    split <;> norm_num
  have h5 := budgetBonus_nonneg inq.budget p
  have h6 : (0:ℚ) ≤ if 0 < p.totalBookings then min p.totalBookings 10 else 0 := by
    split
    · exact le_min hb (by norm_num)
    · norm_num
  have h7 : (0:ℚ) ≤ if p.businessInfo.categories.length ≤ 3 then 5 else 0 := by
    split <;> norm_num
  linarith

/-- C9 (witness): partner A, whose statistics satisfy the schema bounds,
scores at least 10 on the example inquiry. -/
theorem calculateMatchScore_ge_ten_witness :
    10 ≤ calculateMatchScore partnerA inqMumbai :=
  calculateMatchScore_ge_ten partnerA inqMumbai (by norm_num [partnerA])
    (by norm_num [partnerA]) (by norm_num [partnerA])

/-- C10: the score reads the inquiry only through its city and budget — two
inquiries agreeing on those fields receive identical scores from every
partner, whatever their category, event details, status or other
attributes. -/
theorem calculateMatchScore_reads_city_and_budget :
    ∀ (p : Partner) (i1 i2 : Inquiry),
      i1.location.city = i2.location.city → i1.budget = i2.budget →
      calculateMatchScore p i1 = calculateMatchScore p i2 := by
  intro p i1 i2 h1 h2
  simp only [calculateMatchScore, h1, h2]

/-- A Mumbai inquiry agreeing with `inqMumbai` on city and budget but
differing in id, category, event date and status. -/
def inqMumbaiAlt : Inquiry :=
  { id := 501, category := "portrait",
    location := { city := "Mumbai", state := "MH" },
    budget := some { min := some 25000, max := some 75000 },
    eventDate := 99, status := "assigned", assignedPartners := [] }

/-- C10 (witness): partner A scores the two inquiries — which differ in
category, event date and status but agree on city and budget — equally. -/
theorem calculateMatchScore_reads_city_and_budget_witness :
    calculateMatchScore partnerA inqMumbai = calculateMatchScore partnerA inqMumbaiAlt :=
  calculateMatchScore_reads_city_and_budget partnerA inqMumbai inqMumbaiAlt rfl rfl

end Pixisphere
